import Mathlib

/-!
Verification development for the voice-auth web application.

Part 1 models src/app/api/query-history/route.ts: the four route handlers
GET, POST, PUT, DELETE over an explicit database state, with a trace of the
database operations each request performs.

Part 2 models the voice enrollment/verification engine described by the
design document. The engine itself is not present in the visible source
(only the client-side capture component is), so those definitions are
modelled from the spec and marked as such.

Part 3 models the client-side capture flow of the VoiceEnrollment component
(src/unnamed/part_000) as an event-trace semantics of its callback sequence.
-/

namespace QH

/-- The authenticated session user (session.user in the route handlers). -/
structure SessionUser where
  id : String
  role : String
deriving DecidableEq

/-- A stored visualization row (Prisma model Visualization). -/
structure Visualization where
  id : Nat
  queryId : Nat
  chartType : Option String
  chartOptions : Option String
  title : Option String
  description : Option String
deriving DecidableEq

/-- A stored query-history row (Prisma model QueryHistory), with its
optional visualization included as the handlers always include it. -/
structure QueryRecord where
  id : Nat
  userId : String
  userQuery : String
  sqlQuery : String
  relatedQueries : Option String
  results : Option String
  executionTime : Option Nat
  successful : Bool
  errorMessage : Option String
  createdAt : Nat
  visualization : Option Visualization
deriving DecidableEq

/-- Database state: the query-history table, a fresh-id counter for rows
created by the handlers, and the current clock used for createdAt. -/
structure DB where
  queries : List QueryRecord
  nextId : Nat
  now : Nat
deriving DecidableEq

/-- A database operation performed by a handler, recorded in the trace:
read covers findMany, count and findUnique; write covers create, update
and delete. -/
inductive DbOp
  | read
  | write
deriving DecidableEq

/-- Pagination object returned by GET. -/
structure Pagination where
  total : Nat
  page : Int
  limit : Int
  totalPages : Int
deriving DecidableEq

/-- Body of a response, one constructor per shape the handlers produce. -/
inductive RespBody
  | error (msg : String)
  | record (r : QueryRecord)
  | recordOpt (r : Option QueryRecord)
  | list (queries : List QueryRecord) (pagination : Pagination)
  | success (msg : String)
deriving DecidableEq

/-- An HTTP response: status code and JSON body. -/
structure Response where
  status : Nat
  body : RespBody
deriving DecidableEq

/-- JavaScript truthiness of a possibly-absent string: null, undefined and
the empty string are falsy. -/
def truthyS : Option String → Bool
  | none => false
  | some s => s != ""

/-- JavaScript x || y for a possibly-absent string with a string default. -/
def jsOrS (new : Option String) (old : String) : String :=
  match new with
  | some s => if s = "" then old else s
  | none => old

/-- JavaScript x || y where both sides are possibly-absent strings. -/
def jsOrOS (new old : Option String) : Option String :=
  match new with
  | some s => if s = "" then old else some s
  | none => old

/-- JavaScript x || y on a possibly-absent number (0 is falsy). -/
def jsOrON (new old : Option Nat) : Option Nat :=
  match new with
  | some n => if n = 0 then old else some n
  | none => old

/-- Query parameters of GET /api/query-history. limit and page hold the
parseInt result when the parameter is present and non-empty (a present
non-numeric string parses to NaN and is outside this model: it makes the
database client throw, reaching the catch-all 500 like any other
exception). successful holds the raw string. -/
structure GetParams where
  userId : Option String
  limit : Option Int
  page : Option Int
  successful : Option String
deriving DecidableEq

/-- The parsed successful filter:
searchParams.get("successful") ? searchParams.get("successful") === "true" : undefined. -/
def succFilter (p : GetParams) : Option Bool :=
  match p.successful with
  | none => none
  | some s => if s = "" then none else some (s == "true")

/-- The where filter of the GET query, applied to one row: userId equals
(userId || session.user.id), and successful equals the parsed filter when
present. -/
def whereMatch (target : String) (succ : Option Bool) (r : QueryRecord) : Bool :=
  r.userId == target &&
    (match succ with
     | none => true
     | some b => r.successful == b)

/-- Ordering used by orderBy createdAt desc. -/
def byCreatedAtDesc (a b : QueryRecord) : Prop := b.createdAt ≤ a.createdAt

instance : DecidableRel byCreatedAtDesc := fun _ _ => Nat.decLe _ _

instance : IsTotal QueryRecord byCreatedAtDesc :=
  ⟨fun a b => le_total b.createdAt a.createdAt⟩

instance : IsTrans QueryRecord byCreatedAtDesc :=
  ⟨fun _ _ _ h1 h2 => le_trans h2 h1⟩

/-- The rows matching the GET filter. -/
def filteredRows (db : DB) (target : String) (succ : Option Bool) : List QueryRecord :=
  db.queries.filter (whereMatch target succ)

/-- The filtered rows ordered by createdAt descending (the findMany result
before skip and take). -/
def sortedRows (db : DB) (target : String) (succ : Option Bool) : List QueryRecord :=
  (filteredRows db target succ).insertionSort byCreatedAtDesc

/-- GET /api/query-history. Returns the response, the (unchanged) database
and the trace of database operations. A negative skip or take makes the
database client throw before reaching the database, landing in the
catch-all 500 branch. When limit = 0, Math.ceil(total/0) is Infinity (or
NaN), which JSON serializes as null; no claim touches that corner and the
model renders it as 0. -/
def GET (session : Option SessionUser) (p : GetParams) (db : DB) :
    Response × DB × List DbOp :=
  match session with
  | none => (⟨401, .error "unauthorized"⟩, db, [])
  | some u =>
    let lim : Int := p.limit.getD 10
    let page : Int := p.page.getD 1
    let skip : Int := (page - 1) * lim
    if u.role ≠ "ADMIN" ∧ p.userId ≠ some u.id then
      (⟨403, .error "unauthorized: can only access your own query history"⟩, db, [])
    else
      if skip < 0 ∨ lim < 0 then
        (⟨500, .error "error fetching query history"⟩, db, [])
      else
        let target := jsOrS p.userId u.id
        let succ := succFilter p
        let sorted := sortedRows db target succ
        let queries := (sorted.drop skip.toNat).take lim.toNat
        let total := (filteredRows db target succ).length
        let totalPages : Int :=
          if lim = 0 then 0 else Int.ceil ((total : ℚ) / (lim : ℚ))
        (⟨200, .list queries ⟨total, page, lim, totalPages⟩⟩, db, [.read, .read])

/-- Request body of POST /api/query-history. The userId field is
destructured by the handler but never used. -/
structure PostBody where
  userQuery : Option String
  sqlQuery : Option String
  relatedQueries : Option String
  results : Option String
  executionTime : Option Nat
  successful : Option Bool
  errorMessage : Option String
  vizChartType : Option String
  vizChartOptions : Option String
  vizTitle : Option String
  vizDescription : Option String
  hasVisualization : Bool
  userId : Option String
deriving DecidableEq

/-- POST input validation: userQuery and sqlQuery must be truthy. -/
def postAccepts (b : PostBody) : Bool :=
  truthyS b.userQuery && truthyS b.sqlQuery

/-- The row created by POST: userId is forced to the authenticated
session user id, the rest comes from the body; id and createdAt come from
the database state. -/
def mkRecord (u : SessionUser) (b : PostBody) (db : DB) : QueryRecord :=
  { id := db.nextId
    userId := u.id
    userQuery := b.userQuery.getD ""
    sqlQuery := b.sqlQuery.getD ""
    relatedQueries := b.relatedQueries
    results := b.results
    executionTime := b.executionTime
    successful := b.successful.getD true
    errorMessage := b.errorMessage
    createdAt := db.now
    visualization :=
      if b.hasVisualization then
        some ⟨db.nextId + 1, db.nextId, b.vizChartType, b.vizChartOptions,
              b.vizTitle, b.vizDescription⟩
      else none }

/-- POST /api/query-history: create one row owned by the session user. -/
def POST (session : Option SessionUser) (b : PostBody) (db : DB) :
    Response × DB × List DbOp :=
  match session with
  | none => (⟨401, .error "unauthorized"⟩, db, [])
  | some u =>
    if postAccepts b then
      let r := mkRecord u b db
      (⟨201, .record r⟩,
       { db with queries := db.queries ++ [r], nextId := db.nextId + 2 },
       [.write])
    else
      (⟨400, .error "userQuery and sqlQuery are required"⟩, db, [])

/-- Visualization fields of a PUT body. -/
structure PutViz where
  chartType : Option String
  chartOptions : Option String
  title : Option String
  description : Option String
deriving DecidableEq

/-- Request body of PUT /api/query-history. -/
structure PutBody where
  id : Option Nat
  userQuery : Option String
  sqlQuery : Option String
  relatedQueries : Option String
  results : Option String
  executionTime : Option Nat
  successful : Option Bool
  errorMessage : Option String
  visualization : Option PutViz
deriving DecidableEq

/-- Merge of the updated row: each field falls back to the existing value
when the new one is falsy (the || merges of the handler); successful uses
an explicit undefined check. -/
def mergeRecord (b : PutBody) (old : QueryRecord) : QueryRecord :=
  { old with
    userQuery := jsOrS b.userQuery old.userQuery
    sqlQuery := jsOrS b.sqlQuery old.sqlQuery
    relatedQueries := jsOrOS b.relatedQueries old.relatedQueries
    results := jsOrOS b.results old.results
    executionTime := jsOrON b.executionTime old.executionTime
    successful := b.successful.getD old.successful
    errorMessage := jsOrOS b.errorMessage old.errorMessage }

/-- Merge of an existing visualization with the PUT body fields. -/
def mergeViz (v : PutViz) (old : Visualization) : Visualization :=
  { old with
    chartType := jsOrOS v.chartType old.chartType
    chartOptions := jsOrOS v.chartOptions old.chartOptions
    title := jsOrOS v.title old.title
    description := jsOrOS v.description old.description }

/-- The row as left by the PUT transaction: field merge, then the
visualization update (update in place when one exists, create otherwise). -/
def putUpdatedRecord (b : PutBody) (db : DB) (old : QueryRecord) : QueryRecord :=
  let merged := mergeRecord b old
  match b.visualization with
  | none => merged
  | some v =>
    match old.visualization with
    | some oldViz => { merged with visualization := some (mergeViz v oldViz) }
    | none =>
      { merged with
        visualization :=
          some ⟨db.nextId, old.id, v.chartType, v.chartOptions, v.title, v.description⟩ }

/-- PUT /api/query-history: update a row the caller owns (or any row for
an admin). -/
def PUT (session : Option SessionUser) (b : PutBody) (db : DB) :
    Response × DB × List DbOp :=
  match session with
  | none => (⟨401, .error "unauthorized"⟩, db, [])
  | some u =>
    match b.id with
    | none => (⟨400, .error "query history id is required"⟩, db, [])
    | some i =>
      if i = 0 then (⟨400, .error "query history id is required"⟩, db, [])
      else
        match db.queries.find? (fun r => r.id = i) with
        | none => (⟨404, .error "query history not found"⟩, db, [.read])
        | some old =>
          if u.role ≠ "ADMIN" ∧ old.userId ≠ u.id then
            (⟨403, .error "unauthorized: can only update your own query history"⟩,
             db, [.read])
          else
            let updated := putUpdatedRecord b db old
            let db' : DB :=
              { db with
                queries := db.queries.map (fun r => if r.id = i then updated else r)
                nextId := db.nextId + 1 }
            (⟨200, .recordOpt (db'.queries.find? (fun r => r.id = i))⟩,
             db', [.read, .write, .read])

/-- Request body of DELETE /api/query-history. -/
structure DeleteBody where
  id : Option Nat
deriving DecidableEq

/-- DELETE /api/query-history: delete a row the caller owns (or any row
for an admin). -/
def DELETE (session : Option SessionUser) (b : DeleteBody) (db : DB) :
    Response × DB × List DbOp :=
  match session with
  | none => (⟨401, .error "unauthorized"⟩, db, [])
  | some u =>
    match b.id with
    | none => (⟨400, .error "query history id is required"⟩, db, [])
    | some i =>
      if i = 0 then (⟨400, .error "query history id is required"⟩, db, [])
      else
        match db.queries.find? (fun r => r.id = i) with
        | none => (⟨404, .error "query history not found"⟩, db, [.read])
        | some old =>
          if u.role ≠ "ADMIN" ∧ old.userId ≠ u.id then
            (⟨403, .error "unauthorized: can only delete your own query history"⟩,
             db, [.read])
          else
            (⟨200, .success "Query history deleted"⟩,
             { db with queries := db.queries.filter (fun r => r.id ≠ i) },
             [.read, .write])

end QH

namespace Engine

/-- Modelled from the spec: an AudioSample is one finite decoded recording
with its metadata (waveform amplitudes, sample rate, channel count,
duration). The captureId is incidental per-capture identity (the sample is
created per capture request) and is not part of the audio content. -/
structure AudioSample where
  waveform : List ℚ
  sampleRate : Nat
  channelCount : Nat
  durationMs : Nat
  captureId : Nat
deriving DecidableEq

/-- Modelled from the spec: an Embedding is a fixed-dimensionality ordered
sequence of numeric values. -/
abbrev Embedding : Type := List ℚ

/-- Modelled from the spec: FeatureExtractor failure reasons. -/
inductive ExtractError
  | InsufficientSignal
  | UnsupportedFormat
deriving DecidableEq

/-- Modelled from the spec: silence threshold below which no detectable
speech energy is present. -/
def silenceThreshold : ℚ := Rat.divInt 1 100

/-- Largest absolute amplitude of a waveform. -/
def maxAbs (w : List ℚ) : ℚ := w.foldr (fun x m => max |x| m) 0

/-- Modelled from the spec: the FeatureExtractor. Pure function from an
AudioSample to an Embedding; UnsupportedFormat when the sample rate or
channel count is out of range, InsufficientSignal when no amplitude rises
above the silence threshold; otherwise a fixed-length gain-normalized
feature vector computed only from the audio content (the interior
transform is pluggable; this concrete instance satisfies the contract). -/
def extract (s : AudioSample) : Except ExtractError Embedding :=
  if s.sampleRate < 8000 ∨ 48000 < s.sampleRate ∨ s.channelCount ≠ 1 then
    .error .UnsupportedFormat
  else
    let m := maxAbs s.waveform
    if m ≤ silenceThreshold then .error .InsufficientSignal
    else
      let w := s.waveform.map (· / m)
      .ok [w.sum, (w.map (fun x => |x|)).sum, (w.map (fun x => x * x)).sum,
           ((w.length : ℚ))]

/-- Modelled from the spec: the accept/reject decision. -/
inductive Decision
  | Accept
  | Reject
deriving DecidableEq

/-- Modelled from the spec: decide(score, policy) applies the configured
threshold. The spec fixes ties at exactly the threshold to Reject (fail
closed, restated in the error-handling section: ambiguous cases fail
closed), so the accept condition is the strict inequality score over
threshold. -/
def decide (score τ : ℚ) : Decision :=
  if τ < score then .Accept else .Reject

/-- Modelled from the spec: similarity between two embeddings, a
normalized distance mapped so that 1 means identical (an equivalent of
cosine similarity that stays inside the rationals). -/
def sim (a b : Embedding) : ℚ :=
  1 - ((List.zipWith (fun x y => (x - y) * (x - y)) a b).sum)

/-- Modelled from the spec: a stored voice template. -/
structure VoiceTemplate where
  userId : String
  extractorVersion : Nat
  embedding : Embedding
  quality : ℚ
  version : Nat
deriving DecidableEq

/-- Modelled from the spec: the template store, a keyed table of active
templates. -/
structure TemplateStore where
  templates : List VoiceTemplate
deriving DecidableEq

/-- Modelled from the spec: getActive returns the active template of a
user, none when there is none. -/
def getActive (st : TemplateStore) (uid : String) : Option VoiceTemplate :=
  st.templates.find? (fun t => t.userId = uid)

/-- Modelled from the spec: enrollment failure reasons. -/
inductive EnrollFailure
  | EnrollmentIncomplete
  | InconsistentSamples
  | QualityBelowThreshold
deriving DecidableEq

/-- Modelled from the spec: enrollment outcome. -/
inductive EnrollResult
  | Enrolled (version : Nat)
  | Failed (reason : EnrollFailure)
deriving DecidableEq

/-- Modelled from the spec: enrollment configuration. -/
structure EnrollConfig where
  minSuccessfulSamples : Nat
  maxAttempts : Nat
  consistencyThreshold : ℚ
  minQuality : ℚ
deriving DecidableEq

/-- Minimum pairwise similarity among a list of embeddings (1 when there
is at most one embedding, so the consistency check is vacuous there). -/
def minPairwiseSim : List Embedding → ℚ
  | [] => 1
  | e :: rest => rest.foldr (fun f m => min (sim e f) m) (minPairwiseSim rest)

/-- Componentwise sum of embeddings. -/
def sumEmb : List Embedding → Embedding
  | [] => []
  | [e] => e
  | e :: rest => List.zipWith (· + ·) e (sumEmb rest)

/-- Modelled from the spec: aggregate embedding of the successful
enrollment samples (their mean). -/
def aggregate (embs : List Embedding) : Embedding :=
  (sumEmb embs).map (· / (embs.length : ℚ))

/-- Modelled from the spec: put creates a new template version and
atomically marks it active, superseding any prior active version for that
user. -/
def putTemplate (st : TemplateStore) (uid : String) (emb : Embedding)
    (q : ℚ) (version : Nat) : TemplateStore :=
  ⟨⟨uid, 1, emb, q, version⟩ :: st.templates.filter (fun t => t.userId ≠ uid)⟩

/-- Modelled from the spec: the EnrollmentOrchestrator. Runs the extractor
on each capture up to the bounded number of attempts, discards failed
extractions, requires at least minSuccessfulSamples successes, checks
pairwise consistency, then aggregates and stores the template. The quality
score is the pairwise consistency of the samples. -/
def enroll (cfg : EnrollConfig) (uid : String) (captures : List AudioSample)
    (st : TemplateStore) : EnrollResult × TemplateStore :=
  let attempts := captures.take cfg.maxAttempts
  let embs := attempts.filterMap (fun c => (extract c).toOption)
  if embs.length < cfg.minSuccessfulSamples then
    (.Failed .EnrollmentIncomplete, st)
  else
    let consistency := minPairwiseSim embs
    if consistency < cfg.consistencyThreshold then
      (.Failed .InconsistentSamples, st)
    else
      let q := consistency
      if q < cfg.minQuality then (.Failed .QualityBelowThreshold, st)
      else
        let version := (getActive st uid).elim 1 (fun t => t.version + 1)
        (.Enrolled version, putTemplate st uid (aggregate embs) q version)

/-- Modelled from the spec: reason codes of a verification decision. -/
inductive VReason
  | ExtractionFailed
  | NoTemplate
  | LockedOut
  | BelowThreshold
  | Matched
deriving DecidableEq

/-- Modelled from the spec: a VerificationAttempt audit record, appended
on every verification attempt. -/
structure VerificationAttempt where
  userId : String
  timestamp : Nat
  score : Option ℚ
  decision : Decision
  reason : VReason
deriving DecidableEq

/-- Modelled from the spec: the per-attempt verification state machine
Received, Extracting, Matching, Decided, Recorded. -/
inductive VState
  | Received (sample : AudioSample) (uid : String)
  | Extracting (sample : AudioSample) (uid : String)
  | Matching (emb : Embedding) (uid : String)
  | Decided (uid : String) (d : Decision) (reason : VReason) (score : Option ℚ)
  | Recorded (uid : String) (d : Decision) (reason : VReason) (score : Option ℚ)
deriving DecidableEq

/-- Modelled from the spec: the collaborators and policy the verification
orchestrator consults: template store, per-user failed-attempt counter,
lockout bound, decision threshold and clock. -/
structure VerifyEnv where
  store : TemplateStore
  failedAttempts : String → Nat
  maxFailedAttempts : Nat
  τ : ℚ
  now : Nat

/-- The per-attempt context carried through the state machine: current
state plus the audit log written so far. -/
structure VerifyCtx where
  state : VState
  audit : List VerificationAttempt

/-- Modelled from the spec: one transition of the verification state
machine. Extractor failure goes straight to Decided(Reject,
ExtractionFailed); at Matching, the rate limiter is consulted first (a
locked-out user is rejected without computing a fresh score), then the
template is fetched (Reject NoTemplate when absent), then the score is
computed and the decision policy applied. Decided always transitions to
Recorded, appending exactly one VerificationAttempt; Recorded is
terminal. -/
def step (env : VerifyEnv) (c : VerifyCtx) : VerifyCtx :=
  match c.state with
  | .Received s uid => { c with state := .Extracting s uid }
  | .Extracting s uid =>
    match extract s with
    | .error _ => { c with state := .Decided uid .Reject .ExtractionFailed none }
    | .ok e => { c with state := .Matching e uid }
  | .Matching e uid =>
    if env.maxFailedAttempts ≤ env.failedAttempts uid then
      { c with state := .Decided uid .Reject .LockedOut none }
    else
      match getActive env.store uid with
      | none => { c with state := .Decided uid .Reject .NoTemplate none }
      | some t =>
        let sc := sim e t.embedding
        match decide sc env.τ with
        | .Accept => { c with state := .Decided uid .Accept .Matched (some sc) }
        | .Reject => { c with state := .Decided uid .Reject .BelowThreshold (some sc) }
  | .Decided uid d r sc =>
    { state := .Recorded uid d r sc,
      audit := c.audit ++ [⟨uid, env.now, sc, d, r⟩] }
  | .Recorded uid d r sc => { c with state := .Recorded uid d r sc }

/-- A full verification run: five transitions from Received (enough to
reach the terminal state on every path; Recorded absorbs extra steps). -/
def run (env : VerifyEnv) (s : AudioSample) (uid : String) : VerifyCtx :=
  step env (step env (step env (step env (step env ⟨.Received s uid, []⟩))))

/-- Whether a state is the terminal Recorded state. -/
def isRecorded : VState → Bool
  | .Recorded _ _ _ _ => true
  | _ => false

end Engine

namespace Capture

/-- The fixed recording duration of the VoiceEnrollment component:
setTimeout(…, 5000). -/
def recordDurationMs : Nat := 5000

/-- One ondataavailable delivery: offset after recording started, and the
byte size of the delivered data. -/
structure Chunk where
  atMs : Nat
  size : Nat
deriving DecidableEq

/-- Observable events of the handleEnroll callback sequence. -/
inductive Event
  | recordStart (t : Nat)
  | dataAvailable (t : Nat) (size : Nat)
  | recordStop (t : Nat)
  | submit (t : Nat) (payloadBytes : Nat)
deriving DecidableEq

/-- Event trace of the success path of handleEnroll: recording starts at
t0; each ondataavailable delivery is observed, and only chunks of size
greater than zero are pushed into the buffer; the scheduled timer fires
stop at t0 plus the fixed duration; the onstop handler then builds the
blob from the pushed chunks and submits it. The timer is scheduled when
recording starts and does not depend on the deliveries. -/
def handleEnrollTrace (t0 : Nat) (chunks : List Chunk) : List Event :=
  Event.recordStart t0 ::
    (chunks.map (fun c => Event.dataAvailable (t0 + c.atMs) c.size) ++
      [Event.recordStop (t0 + recordDurationMs),
       Event.submit (t0 + recordDurationMs)
         (((chunks.filter (fun c => 0 < c.size)).map Chunk.size).sum)])

/-- The stop time carried by a recordStop event. -/
def stopTimeOf : Event → Option Nat
  | .recordStop t => some t
  | _ => none

/-- The times of the recordStop events of a trace. -/
def stopTimes (tr : List Event) : List Nat :=
  tr.filterMap stopTimeOf

/-- Whether an event is a recordStop. -/
def isStop : Event → Bool
  | .recordStop _ => true
  | _ => false

/-- Whether an event is a submit. -/
def isSubmit : Event → Bool
  | .submit _ _ => true
  | _ => false

/-- True when no submit event occurs before the first recordStop of the
trace: the captured buffer is only submitted after the recorder stops. -/
def submitOnlyAfterStop (tr : List Event) : Bool :=
  (tr.takeWhile (fun e => !isStop e)).all (fun e => !isSubmit e)

end Capture

namespace Wit

/-- A concrete admin session user. -/
def uAdmin : QH.SessionUser := ⟨"admin1", "ADMIN"⟩

/-- A concrete non-admin session user. -/
def uPlain : QH.SessionUser := ⟨"u1", "USER"⟩

/-- A concrete stored row owned by u1. -/
def rec1 : QH.QueryRecord :=
  ⟨1, "u1", "q1", "SELECT 1", none, none, none, true, none, 10, none⟩

/-- A second concrete stored row owned by u1, created later. -/
def rec2 : QH.QueryRecord :=
  ⟨2, "u1", "q2", "SELECT 2", none, none, none, true, none, 20, none⟩

/-- A concrete database with two rows. -/
def dbW : QH.DB := ⟨[rec1, rec2], 3, 100⟩

/-- GET parameters with every parameter absent. -/
def gpDefaults : QH.GetParams := ⟨none, none, none, none⟩

/-- GET parameters selecting the caller's own rows. -/
def gpOwn : QH.GetParams := ⟨some "u1", none, none, none⟩

/-- A concrete audio sample with detectable signal. -/
def validSample : Engine.AudioSample := ⟨[1, -1, 2], 16000, 1, 3000, 0⟩

/-- The same audio content as validSample under a different capture id. -/
def validSample2 : Engine.AudioSample := ⟨[1, -1, 2], 16000, 1, 3000, 7⟩

/-- A concrete silent sample, rejected with InsufficientSignal. -/
def silentSample : Engine.AudioSample := ⟨[0, 0, 0], 16000, 1, 3000, 1⟩

/-- Concrete enrollment configuration: 3 successes required out of 5. -/
def cfgW : Engine.EnrollConfig := ⟨3, 5, 1/2, 1/2⟩

/-- An empty template store. -/
def storeW : Engine.TemplateStore := ⟨[]⟩

/-- A concrete verification environment. -/
def envW : Engine.VerifyEnv := ⟨⟨[]⟩, fun _ => 0, 3, 1/2, 42⟩

/-- A concrete per-attempt context sitting in the Decided state. -/
def ctxDecided : Engine.VerifyCtx := ⟨.Decided "u" .Reject .NoTemplate none, []⟩

end Wit

/-- C1: for every authenticated POST to the query-history creation
endpoint, the response, final database and operation trace are identical
whatever userId value the payload supplies; the row the handler would
create is always owned by the authenticated session user, and on success
the database grows by exactly that row. -/
theorem post_forces_session_identity (u : QH.SessionUser) (b : QH.PostBody)
    (v : Option String) (db : QH.DB) :
    QH.POST (some u) { b with userId := v } db = QH.POST (some u) b db ∧
    (QH.mkRecord u b db).userId = u.id ∧
    (QH.POST (some u) b db).2.1.queries =
      (if QH.postAccepts b then db.queries ++ [QH.mkRecord u b db] else db.queries) := by
  refine ⟨rfl, rfl, ?_⟩
  cases h : QH.postAccepts b <;> simp [QH.POST, h]

/-- C8: every request to GET, POST, PUT or DELETE of /api/query-history
without an authenticated session returns status 401 with an error body,
leaves the database unchanged and performs no database operation. -/
theorem unauthenticated_requests_rejected (db : QH.DB) (gp : QH.GetParams)
    (pb : QH.PostBody) (ub : QH.PutBody) (delb : QH.DeleteBody) :
    QH.GET none gp db = (⟨401, .error "unauthorized"⟩, db, []) ∧
    QH.POST none pb db = (⟨401, .error "unauthorized"⟩, db, []) ∧
    QH.PUT none ub db = (⟨401, .error "unauthorized"⟩, db, []) ∧
    QH.DELETE none delb db = (⟨401, .error "unauthorized"⟩, db, []) :=
  ⟨rfl, rfl, rfl, rfl⟩

/-- C2 counterexample: the claim as stated demands both Accept iff score
at least threshold and Reject at an exact tie; at score = threshold = 1
the two clauses contradict each other on the modelled decide, which fails
closed. -/
theorem decide_claim_false_at_tie :
    ¬ ((Engine.decide 1 1 = Engine.Decision.Accept ↔ (1 : ℚ) ≥ 1) ∧
       ((1 : ℚ) = 1 → Engine.decide 1 1 = Engine.Decision.Reject)) := by
  decide

/-- C2 amended: decide(s, policy) returns Accept if and only if the score
strictly exceeds the threshold, and at an exact tie the decision is Reject
(fail closed). -/
theorem decide_strict_threshold (s τ : ℚ) :
    (Engine.decide s τ = Engine.Decision.Accept ↔ τ < s) ∧
    (s = τ → Engine.decide s τ = Engine.Decision.Reject) := by
  constructor
  · unfold Engine.decide
    split <;> simp_all
  · intro h
    subst h
    unfold Engine.decide
    rw [if_neg (lt_irrefl s)]

/-- C2 witness: the amended theorem applied at the tie score 0 with
threshold 0. -/
theorem decide_strict_threshold_witness :
    (0 : ℚ) = 0 ∧ Engine.decide 0 0 = Engine.Decision.Reject :=
  ⟨rfl, (decide_strict_threshold 0 0).2 rfl⟩

/-- C5: threshold monotonicity: for the same score, if decide accepts at
the higher threshold it also accepts at any strictly lower one. -/
theorem decide_threshold_monotone (s τ1 τ2 : ℚ) (hlt : τ1 < τ2)
    (hacc : Engine.decide s τ2 = Engine.Decision.Accept) :
    Engine.decide s τ1 = Engine.Decision.Accept := by
  unfold Engine.decide at hacc ⊢
  split at hacc
  · next h => rw [if_pos (hlt.trans h)]
  · cases hacc

/-- C5 witness: the monotonicity theorem applied at score 2 with
thresholds 0 and 1. -/
theorem decide_threshold_monotone_witness :
    (0 : ℚ) < 1 ∧ Engine.decide 2 1 = Engine.Decision.Accept ∧
      Engine.decide 2 0 = Engine.Decision.Accept :=
  ⟨by decide, by decide, decide_threshold_monotone 2 0 1 (by decide) (by decide)⟩

/-- C4: the feature extractor is deterministic: two samples with identical
audio content (waveform, sample rate, channel count, duration) extract to
the same result, whatever their incidental capture identity. -/
theorem extract_deterministic (A B : Engine.AudioSample)
    (hw : A.waveform = B.waveform) (hr : A.sampleRate = B.sampleRate)
    (hc : A.channelCount = B.channelCount) (hd : A.durationMs = B.durationMs) :
    Engine.extract A = Engine.extract B := by
  cases A
  cases B
  cases hw
  cases hr
  cases hc
  cases hd
  rfl

/-- C4 witness: determinism applied to two captures of the same content
with different capture ids. -/
theorem extract_deterministic_witness :
    Wit.validSample.waveform = Wit.validSample2.waveform ∧
    Engine.extract Wit.validSample = Engine.extract Wit.validSample2 :=
  ⟨rfl, extract_deterministic Wit.validSample Wit.validSample2 rfl rfl rfl rfl⟩

/-- C3: when fewer than minSuccessfulSamples of the bounded attempts
extract successfully, enrollment fails with EnrollmentIncomplete and the
template store is unchanged (no template stored). -/
theorem enroll_incomplete (cfg : Engine.EnrollConfig) (uid : String)
    (captures : List Engine.AudioSample) (st : Engine.TemplateStore)
    (h : ((captures.take cfg.maxAttempts).filterMap
          (fun c => (Engine.extract c).toOption)).length < cfg.minSuccessfulSamples) :
    Engine.enroll cfg uid captures st =
      (.Failed .EnrollmentIncomplete, st) := by
  simp only [Engine.enroll]
  rw [if_pos h]

/-- C3 witness: the theorem applied to a run where only 2 of 5 captures
carry detectable signal, with minSuccessfulSamples = 3. -/
theorem enroll_incomplete_witness :
    (([Wit.validSample, Wit.silentSample, Wit.silentSample, Wit.silentSample,
       Wit.validSample2].take Wit.cfgW.maxAttempts).filterMap
        (fun c => (Engine.extract c).toOption)).length < Wit.cfgW.minSuccessfulSamples ∧
    Engine.enroll Wit.cfgW "u1"
        [Wit.validSample, Wit.silentSample, Wit.silentSample, Wit.silentSample,
         Wit.validSample2] Wit.storeW =
      (.Failed .EnrollmentIncomplete, Wit.storeW) :=
  ⟨by decide,
   enroll_incomplete Wit.cfgW "u1" _ Wit.storeW (by decide)⟩

/-- C6: in the verification state machine, every step out of a Decided
state goes to Recorded and appends exactly one VerificationAttempt audit
record, and every full verification run, on every path (extraction
failure, lockout, missing template, accept and reject alike), terminates
in Recorded with exactly one audit record. -/
theorem verification_always_recorded :
    (∀ (env : Engine.VerifyEnv) (c : Engine.VerifyCtx) (uid : String)
        (d : Engine.Decision) (r : Engine.VReason) (sc : Option ℚ),
        c.state = .Decided uid d r sc →
        (Engine.step env c).state = .Recorded uid d r sc ∧
        (Engine.step env c).audit = c.audit ++ [⟨uid, env.now, sc, d, r⟩]) ∧
    (∀ (env : Engine.VerifyEnv) (s : Engine.AudioSample) (uid : String),
        Engine.isRecorded (Engine.run env s uid).state = true ∧
        (Engine.run env s uid).audit.length = 1) := by
  constructor
  · intro env c uid d r sc hst
    obtain ⟨st, au⟩ := c
    cases hst
    exact ⟨rfl, rfl⟩
  · intro env s uid
    unfold Engine.run
    cases hex : Engine.extract s with
    | error e => simp [Engine.step, Engine.isRecorded, hex]
    | ok emb =>
      by_cases hlock : env.maxFailedAttempts ≤ env.failedAttempts uid
      · simp [Engine.step, Engine.isRecorded, hex, hlock]
      · cases hga : Engine.getActive env.store uid with
        | none => simp [Engine.step, Engine.isRecorded, hex, hlock, hga]
        | some t =>
          cases hdec : Engine.decide (Engine.sim emb t.embedding) env.τ <;>
            simp [Engine.step, Engine.isRecorded, hex, hlock, hga, hdec]

/-- C6 witness: the Decided-to-Recorded part of the theorem applied to a
concrete context in the Decided state. -/
theorem verification_always_recorded_witness :
    (Engine.step Wit.envW Wit.ctxDecided).state =
      .Recorded "u" .Reject .NoTemplate none ∧
    (Engine.step Wit.envW Wit.ctxDecided).audit =
      [] ++ [⟨"u", 42, none, .Reject, .NoTemplate⟩] :=
  verification_always_recorded.1 Wit.envW Wit.ctxDecided "u" .Reject .NoTemplate
    none rfl

/-- Helper for C7: the dataAvailable events contribute no stop time, so
the only stop in the trace is the one the timer scheduled. -/
theorem stopTimes_handleEnrollTrace (t0 : Nat) (chunks : List Capture.Chunk) :
    Capture.stopTimes (Capture.handleEnrollTrace t0 chunks) =
      [t0 + Capture.recordDurationMs] := by
  simp only [Capture.handleEnrollTrace, Capture.stopTimes, List.filterMap_cons,
    List.filterMap_append, List.filterMap_map]
  rw [show List.filterMap
        (Capture.stopTimeOf ∘ fun c => Capture.Event.dataAvailable (t0 + c.atMs) c.size)
        chunks = [] from List.filterMap_eq_nil_iff.mpr (fun a _ => rfl)]
  rfl

/-- Helper for C7: among the data events and the closing stop and submit,
no submit precedes the stop. -/
theorem submit_tail_after_stop (t0 : Nat) (cs : List Capture.Chunk)
    (stopT subT sz : Nat) :
    (((cs.map (fun c => Capture.Event.dataAvailable (t0 + c.atMs) c.size)) ++
        [Capture.Event.recordStop stopT, Capture.Event.submit subT sz]).takeWhile
          (fun e => !Capture.isStop e)).all (fun e => !Capture.isSubmit e) = true := by
  induction cs with
  | nil => rfl
  | cons c cs ih =>
    simp only [List.map_cons, List.cons_append, List.takeWhile_cons,
      Capture.isStop, Bool.not_false, if_pos rfl, List.all_cons, Capture.isSubmit,
      Bool.true_and]
    exact ih

/-- C7: in the enrollment capture flow, the recorder is stopped by the
scheduled timer exactly recordDurationMs = 5000 ms after recording starts;
the stop time is the same whatever data the recorder delivers (the window
never depends on the audio content); and no submit event occurs before the
recorder has stopped. -/
theorem capture_window_fixed (t0 : Nat) (chunks other : List Capture.Chunk) :
    Capture.stopTimes (Capture.handleEnrollTrace t0 chunks) =
      [t0 + Capture.recordDurationMs] ∧
    Capture.stopTimes (Capture.handleEnrollTrace t0 chunks) =
      Capture.stopTimes (Capture.handleEnrollTrace t0 other) ∧
    Capture.submitOnlyAfterStop (Capture.handleEnrollTrace t0 chunks) = true := by
  refine ⟨stopTimes_handleEnrollTrace t0 chunks,
    (stopTimes_handleEnrollTrace t0 chunks).trans
      (stopTimes_handleEnrollTrace t0 other).symm, ?_⟩
  simp only [Capture.handleEnrollTrace, Capture.submitOnlyAfterStop,
    List.takeWhile_cons, Capture.isStop, Bool.not_false, List.all_cons]
  simp only [Capture.isSubmit, Bool.not_false, Bool.true_and]
  exact submit_tail_after_stop t0 chunks (t0 + Capture.recordDurationMs)
    (t0 + Capture.recordDurationMs)
    (((chunks.filter (fun c => 0 < c.size)).map Capture.Chunk.size).sum)

/-- C9: for an authenticated non-admin GET request, the handler returns
403 exactly when the userId query parameter is not literally the session
user id; in particular an absent userId parameter gives 403 even though
the query filter would have defaulted to the caller's own id. -/
theorem get_403_iff_userId_mismatch (u : QH.SessionUser) (p : QH.GetParams)
    (db : QH.DB) (h : u.role ≠ "ADMIN") :
    ((QH.GET (some u) p db).1.status = 403 ↔ p.userId ≠ some u.id) := by
  by_cases hm : p.userId = some u.id
  · have hcond : ¬ (u.role ≠ "ADMIN" ∧ p.userId ≠ some u.id) := fun hc => hc.2 hm
    simp only [QH.GET]
    rw [if_neg hcond]
    split <;> simp [hm]
  · have hcond : u.role ≠ "ADMIN" ∧ p.userId ≠ some u.id := ⟨h, hm⟩
    simp only [QH.GET]
    rw [if_pos hcond]
    simp [hm]

/-- C9 witness: the theorem applied to a non-admin caller that omits the
userId parameter, observing the 403. -/
theorem get_403_iff_userId_mismatch_witness :
    Wit.uPlain.role ≠ "ADMIN" ∧
    ((QH.GET (some Wit.uPlain) Wit.gpDefaults Wit.dbW).1.status = 403 ↔
      Wit.gpDefaults.userId ≠ some Wit.uPlain.id) :=
  ⟨by decide, get_403_iff_userId_mismatch Wit.uPlain Wit.gpDefaults Wit.dbW (by decide)⟩

/-- C10: every successful GET request (authorization passed, positive
resolved limit and page, with limit defaulting to 10 and page to 1 when
absent) returns the window of the createdAt-descending rows that skips
exactly (page - 1) * limit records, holds at most limit records, is
sorted descending by creation time, and reports totalPages as the ceiling
of total over limit. -/
theorem get_pagination_correct (u : QH.SessionUser) (p : QH.GetParams) (db : QH.DB)
    (hauth : u.role = "ADMIN" ∨ p.userId = some u.id)
    (hlim : 1 ≤ p.limit.getD 10) (hpage : 1 ≤ p.page.getD 1) :
    ∃ qs : List QH.QueryRecord,
      QH.GET (some u) p db =
        (⟨200, .list qs
            ⟨(QH.filteredRows db (QH.jsOrS p.userId u.id) (QH.succFilter p)).length,
             p.page.getD 1, p.limit.getD 10,
             Int.ceil
               (((QH.filteredRows db (QH.jsOrS p.userId u.id) (QH.succFilter p)).length : ℚ) /
                 ((p.limit.getD 10 : Int) : ℚ))⟩⟩,
         db, [.read, .read]) ∧
      qs = ((QH.sortedRows db (QH.jsOrS p.userId u.id) (QH.succFilter p)).drop
              (((p.page.getD 1 - 1) * p.limit.getD 10).toNat)).take
            (p.limit.getD 10).toNat ∧
      qs.length ≤ (p.limit.getD 10).toNat ∧
      List.Pairwise QH.byCreatedAtDesc qs := by
  have hcond : ¬ (u.role ≠ "ADMIN" ∧ p.userId ≠ some u.id) := by
    rcases hauth with h | h
    · exact fun hc => hc.1 h
    · exact fun hc => hc.2 h
  have hskip : ¬ (((p.page.getD 1 - 1) * p.limit.getD 10 : Int) < 0 ∨
      (p.limit.getD 10 : Int) < 0) := by
    push_neg
    refine ⟨mul_nonneg (by omega) (by omega), by omega⟩
  have hlz : ¬ ((p.limit.getD 10 : Int) = 0) := by omega
  refine ⟨((QH.sortedRows db (QH.jsOrS p.userId u.id) (QH.succFilter p)).drop
      (((p.page.getD 1 - 1) * p.limit.getD 10).toNat)).take
        (p.limit.getD 10).toNat, ?_, rfl, ?_, ?_⟩
  · simp only [QH.GET]
    rw [if_neg hcond, if_neg hskip, if_neg hlz]
  · exact List.length_take_le _ _
  · exact List.Pairwise.sublist
      ((List.take_sublist _ _).trans (List.drop_sublist _ _))
      (List.sorted_insertionSort QH.byCreatedAtDesc _)

/-- C10 witness: the theorem applied to a non-admin caller reading its own
two-row history with all parameters defaulted. -/
theorem get_pagination_correct_witness :
    (Wit.uPlain.role = "ADMIN" ∨ Wit.gpOwn.userId = some Wit.uPlain.id) ∧
    1 ≤ Wit.gpOwn.limit.getD 10 ∧ 1 ≤ Wit.gpOwn.page.getD 1 ∧
    (∃ qs : List QH.QueryRecord,
      QH.GET (some Wit.uPlain) Wit.gpOwn Wit.dbW =
        (⟨200, .list qs
            ⟨(QH.filteredRows Wit.dbW (QH.jsOrS Wit.gpOwn.userId Wit.uPlain.id)
                (QH.succFilter Wit.gpOwn)).length,
             Wit.gpOwn.page.getD 1, Wit.gpOwn.limit.getD 10,
             Int.ceil
               (((QH.filteredRows Wit.dbW (QH.jsOrS Wit.gpOwn.userId Wit.uPlain.id)
                   (QH.succFilter Wit.gpOwn)).length : ℚ) /
                 ((Wit.gpOwn.limit.getD 10 : Int) : ℚ))⟩⟩,
         Wit.dbW, [.read, .read]) ∧
      qs = ((QH.sortedRows Wit.dbW (QH.jsOrS Wit.gpOwn.userId Wit.uPlain.id)
              (QH.succFilter Wit.gpOwn)).drop
              (((Wit.gpOwn.page.getD 1 - 1) * Wit.gpOwn.limit.getD 10).toNat)).take
            (Wit.gpOwn.limit.getD 10).toNat ∧
      qs.length ≤ (Wit.gpOwn.limit.getD 10).toNat ∧
      List.Pairwise QH.byCreatedAtDesc qs) :=
  ⟨by decide, by decide, by decide,
   get_pagination_correct Wit.uPlain Wit.gpOwn Wit.dbW (by decide) (by decide)
     (by decide)⟩
